import Mathlib

/-!
Verification development for the emote-usage tracking bot (`main.go`).

The Go source is shallowly embedded: SQL tables become association lists,
`CURRENT_TIMESTAMP` becomes an explicit `now : Nat` parameter, Go strings
become `List Char`, and the handlers become pure functions from store state
to response values. Discord I/O, logging and store-level errors are elided;
every definition mirrors the corresponding Go function by name.
-/

/-! ## Go string primitives

Go strings are modelled as `List Char`.  `splitOnChar` mirrors
`strings.Split` with a single-character separator, `natToChars` /
`intToChars` mirror `fmt.Sprintf("%d", _)` (`strconv.Itoa`), and `goAtoi`
mirrors `strconv.Atoi` (optional sign, decimal digits, anything else is an
error; the int64 range check is omitted since all parsed values here are
small page numbers). -/

abbrev GoStr := List Char

/-- Convert a Lean string literal into the `List Char` model. -/
def gs (s : String) : GoStr := s.data

/-- `strings.Split s ":"` for a one-character separator. -/
def splitOnChar (sep : Char) : GoStr → List GoStr
  | [] => [[]]
  | c :: rest =>
    match splitOnChar sep rest with
    | [] => [[]]
    | h :: t => if c = sep then [] :: h :: t else (c :: h) :: t

/-- Numeric value of a decimal digit character (Go `ch - '0'`). -/
def digitVal (c : Char) : Nat := c.toNat - '0'.toNat

/-- The digit-accumulating loop of `strconv.Atoi`. -/
def parseAcc (a : Nat) : GoStr → Option Nat
  | [] => some a
  | c :: rest => if c.isDigit then parseAcc (10 * a + digitVal c) rest else none

/-- Parse a non-empty all-digit string; `none` otherwise. -/
def parseDigits : GoStr → Option Nat
  | [] => none
  | c :: rest => parseAcc 0 (c :: rest)

/-- `strconv.Atoi`: optional `+`/`-` sign followed by decimal digits. -/
def goAtoi (s : GoStr) : Option Int :=
  match s with
  | [] => none
  | c :: rest =>
    if c = '-' then (parseDigits rest).map (fun n => -(n : Int))
    else if c = '+' then (parseDigits rest).map (fun n => (n : Int))
    else (parseDigits (c :: rest)).map (fun n => (n : Int))

/-- Iterative decimal printer (fuel-indexed so that it is structurally
recursive and kernel-evaluable; the fuel `n + 1` always suffices). -/
def natToCharsAux : Nat → Nat → GoStr → GoStr
  | 0, _, acc => acc
  | fuel + 1, n, acc =>
    if n < 10 then Nat.digitChar n :: acc
    else natToCharsAux fuel (n / 10) (Nat.digitChar (n % 10) :: acc)

/-- Decimal representation of a natural number, as produced by `%d`. -/
def natToChars (n : Nat) : GoStr := natToCharsAux (n + 1) n []

/-- Recursive specification of the decimal printer, used in proofs. -/
def natDigits (n : Nat) : GoStr :=
  if n < 10 then [Nat.digitChar n]
  else natDigits (n / 10) ++ [Nat.digitChar (n % 10)]
  termination_by n
  decreasing_by
    exact Nat.div_lt_self (by omega) (by omega)

/-- Decimal representation of an integer, as produced by `%d`. -/
def intToChars (i : Int) : GoStr :=
  if i < 0 then '-' :: natToChars i.natAbs else natToChars i.natAbs

/-- `List.isPrefixOf` specialised to the model, mirrors `strings.HasPrefix`. -/
def goMatchStart (p s : GoStr) : Bool := List.isPrefixOf p s

/-! ## Counter store (`emojis` / `stickers` tables)

A table is an association list from the primary key `(server_id, item_id)`
to the remaining row contents.  The SQLite primary key guarantees at most
one row per key; upserts update the first (hence only) matching entry. -/

/-- The non-key columns of a counter row. -/
structure Row where
  name : String
  usage_count : Int
  first_used : Nat
  last_used : Nat
deriving DecidableEq, Repr

/-- One counter table: rows keyed by `(server_id, item_id)`. -/
abbrev Table := List ((Int × Int) × Row)

/-- First row whose key is `(sid, itemId)`, if any. -/
def findRow (t : Table) (sid itemId : Int) : Option Row :=
  match t with
  | [] => none
  | (k, r) :: rest => if k = (sid, itemId) then some r else findRow rest sid itemId

/-- `trackCustomEmoji`: `INSERT .. VALUES (.., 1) ON CONFLICT(server_id,
emote_id) DO UPDATE SET usage_count = usage_count + 1, last_used =
CURRENT_TIMESTAMP`.  Column defaults give a fresh row `first_used =
last_used = now`; the conflict update leaves `emote_name` untouched. -/
def trackCustomEmoji (emojiName : String) (emojiID serverID : Int) (now : Nat)
    (t : Table) : Table :=
  match t with
  | [] => [((serverID, emojiID), ⟨emojiName, 1, now, now⟩)]
  | (k, r) :: rest =>
    if k = (serverID, emojiID) then
      (k, { r with usage_count := r.usage_count + 1, last_used := now }) :: rest
    else
      (k, r) :: trackCustomEmoji emojiName emojiID serverID now rest

/-- `decreaseCustomEmoji`: `UPDATE emojis SET usage_count = MAX(0,
usage_count - 1) WHERE server_id = ? AND emote_id = ?`.  No other column is
touched; an absent key updates nothing. -/
def decreaseCustomEmoji (emojiID serverID : Int) (t : Table) : Table :=
  match t with
  | [] => []
  | kr :: rest =>
    (if kr.1 = (serverID, emojiID) then
        (kr.1, { kr.2 with usage_count := max 0 (kr.2.usage_count - 1) })
      else kr) :: decreaseCustomEmoji emojiID serverID rest

/-- `trackSticker`: same upsert as `trackCustomEmoji` on the `stickers`
table (the conflict update again leaves `sticker_name` untouched). -/
def trackSticker (stickerID : Int) (stickerName : String) (serverID : Int)
    (now : Nat) (t : Table) : Table :=
  match t with
  | [] => [((serverID, stickerID), ⟨stickerName, 1, now, now⟩)]
  | (k, r) :: rest =>
    if k = (serverID, stickerID) then
      (k, { r with usage_count := r.usage_count + 1, last_used := now }) :: rest
    else
      (k, r) :: trackSticker stickerID stickerName serverID now rest

/-- The two counter tables of the database. -/
structure Stores where
  emojis : Table
  stickers : Table
deriving DecidableEq, Repr

/-- Rows of a table belonging to one server (`WHERE server_id = ?`). -/
def rowsOf (t : Table) (sid : Int) : Table := t.filter (fun kr => kr.1.1 = sid)

/-- `countEmojis` / `countStickers`: `SELECT COUNT(*) .. WHERE server_id = ?`. -/
def countRows (t : Table) (sid : Int) : Nat := (rowsOf t sid).length

/-- Row ordering `ORDER BY usage_count DESC, last_used DESC`. -/
def rankOrder (a b : (Int × Int) × Row) : Prop :=
  b.2.usage_count < a.2.usage_count ∨
    (a.2.usage_count = b.2.usage_count ∧ b.2.last_used ≤ a.2.last_used)

instance : DecidableRel rankOrder := fun a b => by
  unfold rankOrder; infer_instance

/-- Projection of a row to the fields selected by the list queries. -/
structure EmojiData where
  name : String
  id : Int
  count : Int
  lastUsed : Nat
deriving DecidableEq, Repr

/-- Projection of a sticker row to the selected fields. -/
structure StickerData where
  name : String
  id : Int
  count : Int
  lastUsed : Nat
deriving DecidableEq, Repr

/-- `getEmojis`: ranked page read `SELECT .. WHERE server_id = ? ORDER BY
usage_count DESC, last_used DESC LIMIT ? OFFSET ?`.  A negative SQL offset
behaves like zero, hence `Int.toNat`. -/
def getEmojis (t : Table) (sid : Int) (offset : Int) (limit : Nat) :
    List EmojiData :=
  (((rowsOf t sid).insertionSort rankOrder).drop offset.toNat).take limit
    |>.map fun kr => ⟨kr.2.name, kr.1.2, kr.2.usage_count, kr.2.last_used⟩

/-- `getStickers`: same ranked page read on the `stickers` table. -/
def getStickers (t : Table) (sid : Int) (offset : Int) (limit : Nat) :
    List StickerData :=
  (((rowsOf t sid).insertionSort rankOrder).drop offset.toNat).take limit
    |>.map fun kr => ⟨kr.2.name, kr.1.2, kr.2.usage_count, kr.2.last_used⟩

/-! ## Pagination engine -/

/-- Total-page formula used throughout the handlers: `total/pageSize + 1`
with Go integer (floor) division. -/
def totalPagesCode (total pageSize : Nat) : Nat := total / pageSize + 1

/-- Modelled from the spec: `totalPages = max(1, ceil(totalRows / pageSize))`
(the spec's formula, for comparison with `totalPagesCode`). -/
def specTotalPages (total pageSize : Nat) : Nat :=
  max 1 ((total + pageSize - 1) / pageSize)

/-- A navigation button: its interaction token (`CustomID`) and label. -/
structure Button where
  customID : GoStr
  label : GoStr
deriving DecidableEq, Repr

/-- `fmt.Sprintf("%s:%d", pfx, page)`: the plain page token. -/
def encodeTok (pfx : GoStr) (page : Int) : GoStr := pfx ++ ':' :: intToChars page

/-- `fmt.Sprintf("%s:%d:jump", pfx, page)`: the jump token. -/
def jumpTok (pfx : GoStr) (page : Int) : GoStr := encodeTok pfx page ++ ':' :: gs "jump"

/-- Label `fmt.Sprintf("%d/%d", page+1, totalPages)` of the jump button. -/
def jumpLabel (page totalPages : Int) : GoStr :=
  intToChars (page + 1) ++ '/' :: intToChars totalPages

/-- `createPaginationButtons`: the navigation row.  Appends, in order,
`<<` iff `page > 1`, `<` iff `page > 0`, the jump button always,
`>` iff `page < totalPages-1`, `>>` iff `page < totalPages-2`. -/
def createPaginationButtons (page totalPages : Int) (pfx : GoStr) : List Button :=
  (if 1 < page then [⟨encodeTok pfx (max (page - 10) 0), gs "<<"⟩] else [])
    ++ (if 0 < page then [⟨encodeTok pfx (page - 1), gs "<"⟩] else [])
    ++ [⟨jumpTok pfx page, jumpLabel page totalPages⟩]
    ++ (if page < totalPages - 1 then [⟨encodeTok pfx (page + 1), gs ">"⟩] else [])
    ++ (if page < totalPages - 2 then
          [⟨encodeTok pfx (min (page + 10) (totalPages - 1)), gs ">>"⟩] else [])

/-- `createPageJumpModalResponse`: modal whose text input is pre-filled
with `strconv.Itoa(page + 1)`. -/
structure PageJumpModal where
  customID : GoStr
  inputValue : GoStr
deriving DecidableEq, Repr

def createPageJumpModalResponse (customId : GoStr) (page : Int) : PageJumpModal :=
  ⟨customId, intToChars (page + 1)⟩

/-! ## Command dispatcher responses -/

/-- The observable response payload of a command or button handler. -/
inductive CmdResponse where
  | errorMsg (msg : GoStr)
  | emojiList (entries : List EmojiData) (buttons : List Button) (ephemeral : Bool)
  | stickerList (entries : List StickerData) (buttons : List Button) (ephemeral : Bool)
deriving DecidableEq, Repr

/-- Navigation controls carried by a response (an error carries none). -/
def responseButtons : CmdResponse → List Button
  | .errorMsg _ => []
  | .emojiList _ btns _ => btns
  | .stickerList _ btns _ => btns

/-- `response.Flags &= ^discord.EphemeralMessage` for the share option. -/
def clearEphemeral : CmdResponse → CmdResponse
  | .errorMsg m => .errorMsg m
  | .emojiList e b _ => .emojiList e b false
  | .stickerList e b _ => .stickerList e b false

/-- `createEmojiListMessage`: at most `perPage = 25` entries plus the
navigation row for prefix `emoji_page`; always created ephemeral. -/
def createEmojiListMessage (emojis : List EmojiData) (page : Int)
    (totalPages : Nat) : CmdResponse :=
  .emojiList (emojis.take 25)
    (createPaginationButtons page (totalPages : Int) (gs "emoji_page")) true

/-- `createStickerListMessage`: at most `perPage = 5` embeds plus the
navigation row for prefix `sticker_page`; always created ephemeral. -/
def createStickerListMessage (stickers : List StickerData) (page : Int)
    (totalPages : Nat) : CmdResponse :=
  .stickerList (stickers.take 5)
    (createPaginationButtons page (totalPages : Int) (gs "sticker_page")) true

/-- `handleListEmotes` on a guild interaction: count, read page 0 of 25,
reply with an error when no rows exist, else the paginated list with
`totalPages = total/25 + 1`; `share` clears the ephemeral flag. -/
def handleListEmotes (st : Stores) (sid : Int) (share : Bool) : CmdResponse :=
  let totalEmojis := countRows st.emojis sid
  let emojis := getEmojis st.emojis sid 0 25
  if emojis = [] then .errorMsg (gs "No emoji data found for this server.")
  else
    let response := createEmojiListMessage emojis 0 (totalPagesCode totalEmojis 25)
    if share then clearEphemeral response else response

/-- `handleListStickers`: as `handleListEmotes` with page size 5. -/
def handleListStickers (st : Stores) (sid : Int) (share : Bool) : CmdResponse :=
  let totalStickers := countRows st.stickers sid
  let stickers := getStickers st.stickers sid 0 5
  if stickers = [] then .errorMsg (gs "No sticker data found for this server.")
  else
    let response := createStickerListMessage stickers 0 (totalPagesCode totalStickers 5)
    if share then clearEphemeral response else response

/-! ## Button and modal interactions -/

/-- Decoded meaning of a button token, as recovered by
`handleButtonInteraction` lines 698–715 and the prefix dispatch. -/
inductive TokenAction where
  | jumpModal (page : Int)
  | emojiPage (page : Int)
  | stickerPage (page : Int)
deriving DecidableEq, Repr

/-- Token decoding of `handleButtonInteraction`: split on `:`, require at
least two segments, `Atoi` the second; a third segment `jump` selects the
modal; otherwise dispatch on the `emoji_page:` / `sticker_page:` prefix.
Any other shape is silently dropped. -/
def tokenDecode (customID : GoStr) : Option TokenAction :=
  match splitOnChar ':' customID with
  | _ :: p1 :: rest =>
    match goAtoi p1 with
    | none => none
    | some page =>
      if rest.head? = some (gs "jump") then some (.jumpModal page)
      else if goMatchStart (gs "emoji_page:") customID then some (.emojiPage page)
      else if goMatchStart (gs "sticker_page:") customID then some (.stickerPage page)
      else none
  | _ => none

/-- Observable outcome of a button interaction. -/
inductive BtnOutcome where
  | respondModal (modal : PageJumpModal)
  | updateMsg (resp : CmdResponse)
deriving DecidableEq, Repr

/-- `handleButtonInteraction`: decode the token, then either open the page
jump modal or recount and re-read the requested page (offset
`pageSize * page`) and update the message; `none` models the silent
early returns. -/
def handleButtonInteraction (st : Stores) (sid : Int) (customID : GoStr) :
    Option BtnOutcome :=
  match tokenDecode customID with
  | none => none
  | some (.jumpModal page) =>
    some (.respondModal (createPageJumpModalResponse customID page))
  | some (.emojiPage page) =>
    some (.updateMsg (createEmojiListMessage
      (getEmojis st.emojis sid (25 * page) 25) page
      (totalPagesCode (countRows st.emojis sid) 25)))
  | some (.stickerPage page) =>
    some (.updateMsg (createStickerListMessage
      (getStickers st.stickers sid (5 * page) 5) page
      (totalPagesCode (countRows st.stickers sid) 5)))

/-- `handlePageJumpInteraction`: `Atoi` the submitted value, subtract 1,
range-check against the **emoji** table's page count (the code computes
`countEmojis(...)/25 + 1` before branching on the prefix), then re-read
and update for the kind named by the modal's `CustomID` prefix.  `none`
models the silent early returns. -/
def handlePageJumpInteraction (st : Stores) (sid : Int) (modalCustomID : GoStr)
    (inputValue : GoStr) : Option CmdResponse :=
  match goAtoi inputValue with
  | none => none
  | some v =>
    let pageNum := v - 1
    let totalPages := totalPagesCode (countRows st.emojis sid) 25
    if pageNum < 0 ∨ (totalPages : Int) - 1 < pageNum then none
    else if goMatchStart (gs "emoji_page:") modalCustomID then
      some (createEmojiListMessage
        (getEmojis st.emojis sid (25 * pageNum) 25) pageNum
        (totalPagesCode (countRows st.emojis sid) 25))
    else if goMatchStart (gs "sticker_page:") modalCustomID then
      some (createStickerListMessage
        (getStickers st.stickers sid (5 * pageNum) 5) pageNum
        (totalPagesCode (countRows st.stickers sid) 5))
    else none

/-! ## Live-list cache (`getGuildEmojis`) -/

/-- A live guild emoji as returned by the platform. -/
structure Emoji where
  id : Int
  name : String
deriving DecidableEq, Repr

/-- One cache entry: the fetched list plus its expiry instant. -/
structure CachedEmojiList where
  emojis : List Emoji
  expiresAt : Nat
deriving DecidableEq, Repr

/-- `24 * time.Hour`, with time modelled in seconds. -/
def ttl24h : Nat := 24 * 60 * 60

/-- `getGuildEmojis`: read-through cache.  Returns the result (`none` when
the external fetch fails), the new cache map, and whether the external
fetch was invoked.  A non-expired entry (`now < expiresAt`) is returned
as-is; otherwise the fetch runs and, on success, its result is stored with
`expiresAt = now + 24h`. -/
def getGuildEmojis (fetch : Int → Option (List Emoji)) (now : Nat)
    (cache : Int → Option CachedEmojiList) (gid : Int) :
    Option (List Emoji) × (Int → Option CachedEmojiList) × Bool :=
  let refresh : Unit → Option (List Emoji) × (Int → Option CachedEmojiList) × Bool :=
    fun _ =>
      match fetch gid with
      | none => (none, cache, true)
      | some es =>
        (some es, fun g => if g = gid then some ⟨es, now + ttl24h⟩ else cache g, true)
  match cache gid with
  | some entry =>
    if now < entry.expiresAt then (some entry.emojis, cache, false) else refresh ()
  | none => refresh ()

/-! ## Event-router store operations (for the counter invariant) -/

/-- The store writes issued by the event router: message/reaction-add
touches and reaction-remove decrements. -/
inductive StoreOp where
  | touchEmoji (name : String) (id sid : Int) (now : Nat)
  | removeEmojiReaction (id sid : Int)
  | touchSticker (id : Int) (name : String) (sid : Int) (now : Nat)
deriving DecidableEq, Repr

/-- Apply one store write. -/
def applyOp (st : Stores) : StoreOp → Stores
  | .touchEmoji name id sid now => { st with emojis := trackCustomEmoji name id sid now st.emojis }
  | .removeEmojiReaction id sid => { st with emojis := decreaseCustomEmoji id sid st.emojis }
  | .touchSticker id name sid now => { st with stickers := trackSticker id name sid now st.stickers }

/-- Apply a sequence of store writes, oldest first. -/
def applyOps (ops : List StoreOp) (st : Stores) : Stores := ops.foldl applyOp st

/-- All usage counts in a table are non-negative. -/
def nonNegTable (t : Table) : Prop := ∀ e ∈ t, 0 ≤ e.2.usage_count

/-- All usage counts in both tables are non-negative. -/
def nonNegCounts (st : Stores) : Prop := nonNegTable st.emojis ∧ nonNegTable st.stickers

instance : DecidablePred nonNegTable := fun t => by
  unfold nonNegTable; infer_instance

instance : DecidablePred nonNegCounts := fun st => by
  unfold nonNegCounts; infer_instance

/-! ## Concrete fixtures used by the closed theorems -/

/-- A store of 25 tracked emoji rows for server 10 (a full first page). -/
def emojiT25 : Table :=
  (List.range 25).map fun (k : Nat) => ((10, (k : Int)), (⟨"e", 1, 0, k⟩ : Row))

/-- A store of 6 tracked sticker rows for server 10 (two pages of 5). -/
def stickerT6 : Table :=
  (List.range 6).map fun (k : Nat) => ((10, (k : Int)), (⟨"s", 1, 0, 0⟩ : Row))

/-! ## Lemmas about the string primitives -/

theorem natToCharsAux_eq_natDigits :
    ∀ (fuel n : Nat) (acc : GoStr), n < fuel →
      natToCharsAux fuel n acc = natDigits n ++ acc := by
  intro fuel
  induction fuel with
  | zero => intro n acc h; omega
  | succ f ih =>
    intro n acc h
    by_cases h10 : n < 10
    · rw [natToCharsAux, if_pos h10, natDigits, if_pos h10]
      rfl
    · rw [natToCharsAux, if_neg h10, natDigits, if_neg h10]
      rw [ih (n / 10) _ (by omega)]
      simp

theorem natToChars_eq_natDigits (n : Nat) : natToChars n = natDigits n := by
  rw [natToChars, natToCharsAux_eq_natDigits (n + 1) n [] (by omega)]
  simp

theorem digitChar_isDigit {m : Nat} (h : m < 10) :
    (Nat.digitChar m).isDigit = true := by
  interval_cases m <;> decide

theorem digitVal_digitChar {m : Nat} (h : m < 10) :
    digitVal (Nat.digitChar m) = m := by
  interval_cases m <;> decide

theorem natDigits_ne_nil (n : Nat) : natDigits n ≠ [] := by
  rw [natDigits]
  by_cases h : n < 10 <;> simp [h]

theorem natDigits_all_digits (n : Nat) : ∀ c ∈ natDigits n, c.isDigit = true := by
  induction n using Nat.strong_induction_on with
  | _ n ih =>
    intro c hc
    rw [natDigits] at hc
    by_cases h : n < 10
    · rw [if_pos h] at hc
      simp only [List.mem_singleton] at hc
      subst hc
      exact digitChar_isDigit h
    · rw [if_neg h] at hc
      rcases List.mem_append.mp hc with h1 | h1
      · exact ih (n / 10) (Nat.div_lt_self (by omega) (by omega)) c h1
      · simp only [List.mem_singleton] at h1
        subst h1
        exact digitChar_isDigit (Nat.mod_lt _ (by omega))

theorem parseAcc_append (l₁ l₂ : GoStr) :
    ∀ a, parseAcc a (l₁ ++ l₂) =
      match parseAcc a l₁ with
      | none => none
      | some v => parseAcc v l₂ := by
  induction l₁ with
  | nil => intro a; rfl
  | cons c rest ih =>
    intro a
    by_cases hc : c.isDigit
    · simp only [List.cons_append, parseAcc, if_pos hc]
      exact ih _
    · simp only [List.cons_append, parseAcc, if_neg hc]

theorem parseDigits_eq_parseAcc {l : GoStr} (h : l ≠ []) :
    parseDigits l = parseAcc 0 l := by
  cases l with
  | nil => exact absurd rfl h
  | cons c rest => rfl

theorem parseDigits_natDigits (n : Nat) : parseDigits (natDigits n) = some n := by
  induction n using Nat.strong_induction_on with
  | _ n ih =>
    rw [natDigits]
    by_cases h : n < 10
    · rw [if_pos h]
      rw [parseDigits, parseAcc, if_pos (digitChar_isDigit h)]
      rw [parseAcc, digitVal_digitChar h]
      simp
    · rw [if_neg h]
      rw [parseDigits_eq_parseAcc (by simp [natDigits_ne_nil])]
      rw [parseAcc_append]
      rw [← parseDigits_eq_parseAcc (natDigits_ne_nil _)]
      rw [ih (n / 10) (Nat.div_lt_self (by omega) (by omega))]
      have hm : n % 10 < 10 := Nat.mod_lt _ (by omega)
      simp only [parseAcc, if_pos (digitChar_isDigit hm), digitVal_digitChar hm]
      have : 10 * (n / 10) + n % 10 = n := by omega
      rw [this]

theorem parseDigits_natToChars (n : Nat) : parseDigits (natToChars n) = some n := by
  rw [natToChars_eq_natDigits]; exact parseDigits_natDigits n

theorem goAtoi_intToChars (i : Int) : goAtoi (intToChars i) = some i := by
  rw [intToChars]
  by_cases h : i < 0
  · rw [if_pos h]
    rw [goAtoi]
    simp only [if_pos rfl]
    rw [parseDigits_natToChars]
    show some (-(i.natAbs : Int)) = some i
    congr 1
    omega
  · rw [if_neg h]
    rw [natToChars_eq_natDigits]
    obtain ⟨c, rest, hcr⟩ : ∃ c rest, natDigits i.natAbs = c :: rest := by
      cases hnd : natDigits i.natAbs with
      | nil => exact absurd hnd (natDigits_ne_nil _)
      | cons c rest => exact ⟨c, rest, rfl⟩
    rw [hcr]
    have hdig : c.isDigit = true :=
      natDigits_all_digits i.natAbs c (hcr ▸ List.mem_cons_self c rest)
    have hcne : c ≠ '-' := by
      intro he; rw [he] at hdig; exact absurd hdig (by decide)
    have hcne' : c ≠ '+' := by
      intro he; rw [he] at hdig; exact absurd hdig (by decide)
    rw [goAtoi]
    simp only [if_neg hcne, if_neg hcne']
    rw [← hcr, parseDigits_natDigits]
    show some ((i.natAbs : Int)) = some i
    congr 1
    omega

theorem colon_not_mem_natDigits (n : Nat) : (':' : Char) ∉ natDigits n := by
  intro hmem
  have := natDigits_all_digits n ':' hmem
  exact absurd this (by decide)

theorem colon_not_mem_intToChars (i : Int) : (':' : Char) ∉ intToChars i := by
  rw [intToChars]
  by_cases h : i < 0
  · rw [if_pos h, natToChars_eq_natDigits]
    intro hmem
    rcases List.mem_cons.mp hmem with h1 | h1
    · exact absurd h1 (by decide)
    · exact colon_not_mem_natDigits _ h1
  · rw [if_neg h, natToChars_eq_natDigits]
    exact colon_not_mem_natDigits _

theorem splitOnChar_no_sep {sep : Char} :
    ∀ {l : GoStr}, sep ∉ l → splitOnChar sep l = [l] := by
  intro l
  induction l with
  | nil => intro _; rfl
  | cons c rest ih =>
    intro h
    have hc : c ≠ sep := fun he => h (he ▸ List.mem_cons_self c rest)
    have hrest : sep ∉ rest := fun hm => h (List.mem_cons_of_mem c hm)
    rw [splitOnChar, ih hrest]
    simp [hc]

theorem splitOnChar_ne_nil (sep : Char) (l : GoStr) : splitOnChar sep l ≠ [] := by
  induction l with
  | nil => simp [splitOnChar]
  | cons c rest ih =>
    rw [splitOnChar]
    rcases h : splitOnChar sep rest with _ | ⟨h', t'⟩
    · exact absurd h ih
    · by_cases hc : c = sep <;> simp [hc]

theorem splitOnChar_append {sep : Char} :
    ∀ {l₁ : GoStr} (l₂ : GoStr), sep ∉ l₁ →
      splitOnChar sep (l₁ ++ sep :: l₂) = l₁ :: splitOnChar sep l₂ := by
  intro l₁
  induction l₁ with
  | nil =>
    intro l₂ _
    simp only [List.nil_append, splitOnChar]
    cases hs : splitOnChar sep l₂ with
    | nil => exact absurd hs (splitOnChar_ne_nil sep l₂)
    | cons h t => simp
  | cons c rest ih =>
    intro l₂ h
    have hc : c ≠ sep := fun he => h (he ▸ List.mem_cons_self c rest)
    have hrest : sep ∉ rest := fun hm => h (List.mem_cons_of_mem c hm)
    rw [List.cons_append, splitOnChar, ih l₂ hrest]
    simp [hc]

/-! ## Token round-trip lemmas -/

theorem split_encodeTok_emoji (p : Int) :
    splitOnChar ':' (encodeTok (gs "emoji_page") p) = [gs "emoji_page", intToChars p] := by
  rw [encodeTok, splitOnChar_append _ (by decide),
    splitOnChar_no_sep (colon_not_mem_intToChars p)]

theorem split_encodeTok_sticker (p : Int) :
    splitOnChar ':' (encodeTok (gs "sticker_page") p) = [gs "sticker_page", intToChars p] := by
  rw [encodeTok, splitOnChar_append _ (by decide),
    splitOnChar_no_sep (colon_not_mem_intToChars p)]

theorem start_encodeTok_emoji (p : Int) :
    goMatchStart (gs "emoji_page:") (encodeTok (gs "emoji_page") p) = true := by
  rw [goMatchStart, List.isPrefixOf_iff_prefix]
  have h2 : gs "emoji_page:" = gs "emoji_page" ++ [':'] := by decide
  have h3 : encodeTok (gs "emoji_page") p = (gs "emoji_page" ++ [':']) ++ intToChars p := by
    rw [encodeTok, List.append_assoc]
    rfl
  rw [h2, h3]
  exact List.prefix_append _ _

theorem start_encodeTok_sticker (p : Int) :
    goMatchStart (gs "sticker_page:") (encodeTok (gs "sticker_page") p) = true := by
  rw [goMatchStart, List.isPrefixOf_iff_prefix]
  have h2 : gs "sticker_page:" = gs "sticker_page" ++ [':'] := by decide
  have h3 : encodeTok (gs "sticker_page") p = (gs "sticker_page" ++ [':']) ++ intToChars p := by
    rw [encodeTok, List.append_assoc]
    rfl
  rw [h2, h3]
  exact List.prefix_append _ _

theorem not_start_emoji_sticker (p : Int) :
    goMatchStart (gs "emoji_page:") (encodeTok (gs "sticker_page") p) = false := by
  have h1 : encodeTok (gs "sticker_page") p
      = 's' :: (gs "ticker_page" ++ ':' :: intToChars p) := by
    rw [encodeTok]; rfl
  have h2 : gs "emoji_page:" = 'e' :: gs "moji_page:" := by decide
  rw [goMatchStart, h1, h2, List.isPrefixOf_cons₂]
  simp

theorem tokenDecode_encode_emoji (p : Int) :
    tokenDecode (encodeTok (gs "emoji_page") p) = some (.emojiPage p) := by
  rw [tokenDecode, split_encodeTok_emoji]
  simp only [goAtoi_intToChars, List.head?_nil]
  rw [if_neg (by simp), if_pos (start_encodeTok_emoji p)]

theorem tokenDecode_encode_sticker (p : Int) :
    tokenDecode (encodeTok (gs "sticker_page") p) = some (.stickerPage p) := by
  rw [tokenDecode, split_encodeTok_sticker]
  simp only [goAtoi_intToChars, List.head?_nil]
  rw [if_neg (by simp), if_neg (by rw [not_start_emoji_sticker]; simp),
    if_pos (start_encodeTok_sticker p)]

theorem tokenDecode_short (cid : GoStr) (h : (splitOnChar ':' cid).length < 2) :
    tokenDecode cid = none := by
  rw [tokenDecode]
  rcases hs : splitOnChar ':' cid with _ | ⟨a, _ | ⟨b, r⟩⟩
  · rfl
  · rfl
  · rw [hs] at h; simp at h; omega

theorem tokenDecode_badPage (cid : GoStr) (p0 p1 : GoStr) (rest : List GoStr)
    (hs : splitOnChar ':' cid = p0 :: p1 :: rest) (hp : goAtoi p1 = none) :
    tokenDecode cid = none := by
  rw [tokenDecode, hs]
  simp only [hp]

theorem handleButton_none (st : Stores) (sid : Int) (cid : GoStr)
    (h : tokenDecode cid = none) : handleButtonInteraction st sid cid = none := by
  rw [handleButtonInteraction, h]

/-! ## Navigation-row membership lemmas -/

theorem slash_mem_jumpLabel (a b : Int) : ('/' : Char) ∈ jumpLabel a b := by
  rw [jumpLabel]
  exact List.mem_append_right _ (List.mem_cons_self _ _)

theorem jumpLabel_ne_lt (a b : Int) : jumpLabel a b ≠ gs "<" := by
  intro h; exact absurd (h ▸ slash_mem_jumpLabel a b) (by decide)

theorem jumpLabel_ne_llt (a b : Int) : jumpLabel a b ≠ gs "<<" := by
  intro h; exact absurd (h ▸ slash_mem_jumpLabel a b) (by decide)

theorem jumpLabel_ne_gt (a b : Int) : jumpLabel a b ≠ gs ">" := by
  intro h; exact absurd (h ▸ slash_mem_jumpLabel a b) (by decide)

theorem jumpLabel_ne_ggt (a b : Int) : jumpLabel a b ≠ gs ">>" := by
  intro h; exact absurd (h ▸ slash_mem_jumpLabel a b) (by decide)

theorem lt_ne_jumpLabel (a b : Int) : gs "<" ≠ jumpLabel a b :=
  fun h => jumpLabel_ne_lt a b h.symm

theorem llt_ne_jumpLabel (a b : Int) : gs "<<" ≠ jumpLabel a b :=
  fun h => jumpLabel_ne_llt a b h.symm

theorem gt_ne_jumpLabel (a b : Int) : gs ">" ≠ jumpLabel a b :=
  fun h => jumpLabel_ne_gt a b h.symm

theorem ggt_ne_jumpLabel (a b : Int) : gs ">>" ≠ jumpLabel a b :=
  fun h => jumpLabel_ne_ggt a b h.symm

theorem jump_mem_buttons (page tp : Int) (pfx : GoStr) :
    (⟨jumpTok pfx page, jumpLabel page tp⟩ : Button) ∈
      createPaginationButtons page tp pfx := by
  simp [createPaginationButtons]

theorem prev_mem_buttons_iff (page tp : Int) (pfx : GoStr) :
    (⟨encodeTok pfx (page - 1), gs "<"⟩ : Button) ∈
        createPaginationButtons page tp pfx ↔ 0 < page := by
  have d1 : gs "<" ≠ gs "<<" := by decide
  have d2 : gs "<" ≠ gs ">" := by decide
  have d3 : gs "<" ≠ gs ">>" := by decide
  by_cases h1 : 1 < page <;> by_cases h2 : 0 < page <;>
    by_cases h3 : page < tp - 1 <;> by_cases h4 : page < tp - 2 <;>
    simp [createPaginationButtons, h1, h2, h3, h4, Button.mk.injEq, d1, d2, d3,
      lt_ne_jumpLabel]

theorem prev10_mem_buttons_iff (page tp : Int) (pfx : GoStr) :
    (⟨encodeTok pfx (max (page - 10) 0), gs "<<"⟩ : Button) ∈
        createPaginationButtons page tp pfx ↔ 1 < page := by
  have d1 : gs "<<" ≠ gs "<" := by decide
  have d2 : gs "<<" ≠ gs ">" := by decide
  have d3 : gs "<<" ≠ gs ">>" := by decide
  by_cases h1 : 1 < page <;> by_cases h2 : 0 < page <;>
    by_cases h3 : page < tp - 1 <;> by_cases h4 : page < tp - 2 <;>
    simp [createPaginationButtons, h1, h2, h3, h4, Button.mk.injEq, d1, d2, d3,
      llt_ne_jumpLabel]

theorem next_mem_buttons_iff (page tp : Int) (pfx : GoStr) :
    (⟨encodeTok pfx (page + 1), gs ">"⟩ : Button) ∈
        createPaginationButtons page tp pfx ↔ page < tp - 1 := by
  have d1 : gs ">" ≠ gs "<" := by decide
  have d2 : gs ">" ≠ gs "<<" := by decide
  have d3 : gs ">" ≠ gs ">>" := by decide
  by_cases h1 : 1 < page <;> by_cases h2 : 0 < page <;>
    by_cases h3 : page < tp - 1 <;> by_cases h4 : page < tp - 2 <;>
    simp [createPaginationButtons, h1, h2, h3, h4, Button.mk.injEq, d1, d2, d3,
      gt_ne_jumpLabel]

theorem next10_mem_buttons_iff (page tp : Int) (pfx : GoStr) :
    (⟨encodeTok pfx (min (page + 10) (tp - 1)), gs ">>"⟩ : Button) ∈
        createPaginationButtons page tp pfx ↔ page < tp - 2 := by
  have d1 : gs ">>" ≠ gs "<" := by decide
  have d2 : gs ">>" ≠ gs "<<" := by decide
  have d3 : gs ">>" ≠ gs ">" := by decide
  by_cases h1 : 1 < page <;> by_cases h2 : 0 < page <;>
    by_cases h3 : page < tp - 1 <;> by_cases h4 : page < tp - 2 <;>
    simp [createPaginationButtons, h1, h2, h3, h4, Button.mk.injEq, d1, d2, d3,
      ggt_ne_jumpLabel]

theorem mem_ite_singleton {c : Prop} [Decidable c] {x b : Button}
    (h : b ∈ if c then [x] else []) : b = x := by
  split at h
  · simpa using h
  · simp at h

theorem label_of_mem_buttons (page tp : Int) (pfx : GoStr) (b : Button)
    (hmem : b ∈ createPaginationButtons page tp pfx) :
    b.label = gs "<<" ∨ b.label = gs "<" ∨ b.label = jumpLabel page tp ∨
      b.label = gs ">" ∨ b.label = gs ">>" := by
  rw [createPaginationButtons] at hmem
  simp only [List.mem_append, List.mem_singleton, or_assoc] at hmem
  rcases hmem with h | h | h | h | h
  · rw [mem_ite_singleton h]; simp
  · rw [mem_ite_singleton h]; simp
  · subst h; simp
  · rw [mem_ite_singleton h]; simp
  · rw [mem_ite_singleton h]; simp

/-! ## Counter-store lemmas -/

theorem findRow_trackCustomEmoji (nm : String) (id sid : Int) (now : Nat)
    (t : Table) :
    findRow (trackCustomEmoji nm id sid now t) sid id =
      match findRow t sid id with
      | none => some ⟨nm, 1, now, now⟩
      | some r => some ⟨r.name, r.usage_count + 1, r.first_used, now⟩ := by
  induction t with
  | nil => simp [trackCustomEmoji, findRow]
  | cons kr rest ih =>
    obtain ⟨k, r⟩ := kr
    by_cases hk : k = (sid, id)
    · simp [trackCustomEmoji, findRow, hk]
    · simp [trackCustomEmoji, findRow, hk, ih]

theorem findRow_trackSticker (id : Int) (nm : String) (sid : Int) (now : Nat)
    (t : Table) :
    findRow (trackSticker id nm sid now t) sid id =
      match findRow t sid id with
      | none => some ⟨nm, 1, now, now⟩
      | some r => some ⟨r.name, r.usage_count + 1, r.first_used, now⟩ := by
  induction t with
  | nil => simp [trackSticker, findRow]
  | cons kr rest ih =>
    obtain ⟨k, r⟩ := kr
    by_cases hk : k = (sid, id)
    · simp [trackSticker, findRow, hk]
    · simp [trackSticker, findRow, hk, ih]

theorem findRow_decreaseCustomEmoji (id sid : Int) (t : Table) :
    findRow (decreaseCustomEmoji id sid t) sid id =
      (findRow t sid id).map fun r =>
        ⟨r.name, max 0 (r.usage_count - 1), r.first_used, r.last_used⟩ := by
  induction t with
  | nil => simp [decreaseCustomEmoji, findRow]
  | cons kr rest ih =>
    obtain ⟨k, r⟩ := kr
    by_cases hk : k = (sid, id)
    · subst hk
      rw [decreaseCustomEmoji,
        if_pos (show (((sid, id), r) : (Int × Int) × Row).1 = (sid, id) from rfl),
        findRow, if_pos rfl, findRow, if_pos rfl]
      rfl
    · rw [decreaseCustomEmoji]
      simp only [if_neg hk]
      rw [findRow, findRow]
      simp only [if_neg hk]
      exact ih

theorem decreaseCustomEmoji_absent (id sid : Int) (t : Table)
    (h : findRow t sid id = none) : decreaseCustomEmoji id sid t = t := by
  induction t with
  | nil => rfl
  | cons kr rest ih =>
    obtain ⟨k, r⟩ := kr
    rw [findRow] at h
    by_cases hk : k = (sid, id)
    · rw [if_pos hk] at h; exact absurd h (by simp)
    · rw [if_neg hk] at h
      rw [decreaseCustomEmoji]
      simp only [if_neg hk]
      rw [ih h]

theorem nonNegTable_trackCustomEmoji (nm : String) (id sid : Int) (now : Nat)
    (t : Table) (h : nonNegTable t) :
    nonNegTable (trackCustomEmoji nm id sid now t) := by
  induction t with
  | nil => intro e he; simp [trackCustomEmoji] at he; subst he; simp
  | cons kr rest ih =>
    obtain ⟨k, r⟩ := kr
    have hhead : 0 ≤ r.usage_count := h (k, r) (List.mem_cons_self _ _)
    have hrest : nonNegTable rest := fun e he => h e (List.mem_cons_of_mem _ he)
    intro e he
    rw [trackCustomEmoji] at he
    by_cases hk : k = (sid, id)
    · rw [if_pos hk] at he
      rcases List.mem_cons.mp he with h1 | h1
      · subst h1; simp; omega
      · exact h e (List.mem_cons_of_mem _ h1)
    · rw [if_neg hk] at he
      rcases List.mem_cons.mp he with h1 | h1
      · subst h1; exact hhead
      · exact ih hrest e h1

theorem nonNegTable_trackSticker (id : Int) (nm : String) (sid : Int) (now : Nat)
    (t : Table) (h : nonNegTable t) :
    nonNegTable (trackSticker id nm sid now t) := by
  induction t with
  | nil => intro e he; simp [trackSticker] at he; subst he; simp
  | cons kr rest ih =>
    obtain ⟨k, r⟩ := kr
    have hhead : 0 ≤ r.usage_count := h (k, r) (List.mem_cons_self _ _)
    have hrest : nonNegTable rest := fun e he => h e (List.mem_cons_of_mem _ he)
    intro e he
    rw [trackSticker] at he
    by_cases hk : k = (sid, id)
    · rw [if_pos hk] at he
      rcases List.mem_cons.mp he with h1 | h1
      · subst h1; simp; omega
      · exact h e (List.mem_cons_of_mem _ h1)
    · rw [if_neg hk] at he
      rcases List.mem_cons.mp he with h1 | h1
      · subst h1; exact hhead
      · exact ih hrest e h1

theorem nonNegTable_decreaseCustomEmoji (id sid : Int) (t : Table)
    (h : nonNegTable t) : nonNegTable (decreaseCustomEmoji id sid t) := by
  induction t with
  | nil => intro e he; simp [decreaseCustomEmoji] at he
  | cons kr rest ih =>
    intro e he
    rw [decreaseCustomEmoji] at he
    rcases List.mem_cons.mp he with h1 | h1
    · by_cases hk : kr.1 = (sid, id)
      · rw [if_pos hk] at h1; subst h1; exact le_max_left 0 _
      · rw [if_neg hk] at h1
        rw [h1]
        exact h kr (List.mem_cons_self _ _)
    · exact ih (fun e' he' => h e' (List.mem_cons_of_mem _ he')) e h1

theorem nonNegCounts_applyOp (st : Stores) (op : StoreOp)
    (h : nonNegCounts st) : nonNegCounts (applyOp st op) := by
  obtain ⟨he, hs⟩ := h
  cases op with
  | touchEmoji nm id sid now =>
    exact ⟨nonNegTable_trackCustomEmoji nm id sid now _ he, hs⟩
  | removeEmojiReaction id sid =>
    exact ⟨nonNegTable_decreaseCustomEmoji id sid _ he, hs⟩
  | touchSticker id nm sid now =>
    exact ⟨he, nonNegTable_trackSticker id nm sid now _ hs⟩

/-! ## Paged-read and handler lemmas -/

theorem getEmojis_empty_of_beyond (t : Table) (sid : Int) (offset : Int)
    (limit : Nat) (h : countRows t sid ≤ offset.toNat) :
    getEmojis t sid offset limit = [] := by
  rw [getEmojis]
  have hd : ((rowsOf t sid).insertionSort rankOrder).drop offset.toNat = [] := by
    apply List.drop_eq_nil_of_le
    rw [List.length_insertionSort]
    exact h
  rw [hd]
  simp

theorem getStickers_empty_of_beyond (t : Table) (sid : Int) (offset : Int)
    (limit : Nat) (h : countRows t sid ≤ offset.toNat) :
    getStickers t sid offset limit = [] := by
  rw [getStickers]
  have hd : ((rowsOf t sid).insertionSort rankOrder).drop offset.toNat = [] := by
    apply List.drop_eq_nil_of_le
    rw [List.length_insertionSort]
    exact h
  rw [hd]
  simp

theorem count_le_offset (count : Nat) (page : Int)
    (h : (totalPagesCode count 25 : Int) ≤ page) : count ≤ (25 * page).toNat := by
  rw [totalPagesCode] at h
  omega

theorem handleButton_emoji_page (st : Stores) (sid page : Int) :
    handleButtonInteraction st sid (encodeTok (gs "emoji_page") page) =
      some (.updateMsg (createEmojiListMessage (getEmojis st.emojis sid (25 * page) 25)
        page (totalPagesCode (countRows st.emojis sid) 25))) := by
  rw [handleButtonInteraction, tokenDecode_encode_emoji]

theorem count_le_offset5 (count : Nat) (page : Int)
    (h : (totalPagesCode count 5 : Int) ≤ page) : count ≤ (5 * page).toNat := by
  rw [totalPagesCode] at h
  omega

theorem handleButton_sticker_page (st : Stores) (sid page : Int) :
    handleButtonInteraction st sid (encodeTok (gs "sticker_page") page) =
      some (.updateMsg (createStickerListMessage
        (getStickers st.stickers sid (5 * page) 5) page
        (totalPagesCode (countRows st.stickers sid) 5))) := by
  rw [handleButtonInteraction, tokenDecode_encode_sticker]

theorem getGuildEmojis_hit (fetch : Int → Option (List Emoji)) (now : Nat)
    (cache : Int → Option CachedEmojiList) (gid : Int) (entry : CachedEmojiList)
    (hc : cache gid = some entry) (hlt : now < entry.expiresAt) :
    getGuildEmojis fetch now cache gid = (some entry.emojis, cache, false) := by
  rw [getGuildEmojis]
  simp only [hc]
  rw [if_pos hlt]

theorem getGuildEmojis_refresh (fetch : Int → Option (List Emoji)) (now : Nat)
    (cache : Int → Option CachedEmojiList) (gid : Int) (es : List Emoji)
    (hmiss : cache gid = none ∨ ∃ e, cache gid = some e ∧ ¬ now < e.expiresAt)
    (hf : fetch gid = some es) :
    getGuildEmojis fetch now cache gid =
      (some es, fun g => if g = gid then some ⟨es, now + ttl24h⟩ else cache g, true) := by
  rw [getGuildEmojis]
  rcases hmiss with hc | ⟨e, hc, hexp⟩
  · simp only [hc, hf]
  · simp only [hc, hf, if_neg hexp]

/-! ## Claim theorems -/

/-- C1: for every counter row and every interleaved sequence of upsert
(`trackCustomEmoji`/`trackSticker`) and decrement (`decreaseCustomEmoji`)
operations, `usage_count` never goes below 0: non-negativity of all counts
is an invariant preserved by every store operation, regardless of how many
decrements are issued. -/
theorem C1_counter_nonneg (ops : List StoreOp) (st : Stores)
    (h : nonNegCounts st) : nonNegCounts (applyOps ops st) := by
  induction ops generalizing st with
  | nil => exact h
  | cons op rest ih => exact ih _ (nonNegCounts_applyOp st op h)

/-- Witness for C1: a fresh store, one emoji touch, three decrements (two
more than the count), and a sticker touch still satisfy the invariant. -/
theorem C1_counter_nonneg_witness :
    nonNegCounts (applyOps
      [StoreOp.touchEmoji "smile" 1 10 0, StoreOp.removeEmojiReaction 1 10,
        StoreOp.removeEmojiReaction 1 10, StoreOp.removeEmojiReaction 7 10,
        StoreOp.touchSticker 2 "wave" 10 1] ⟨[], []⟩) :=
  C1_counter_nonneg _ _ (by decide)

/-- C2 counterexample: the claim says a touch on an existing `(server,
item)` pair overwrites the stored name with the name passed in; after a
first touch storing "alfa" and a second touch passing "beta", the stored
name is still "alfa" (the `ON CONFLICT` update does not set the name). -/
theorem C2_upsert_counterexample :
    findRow (trackCustomEmoji "beta" 1 10 5 (trackCustomEmoji "alfa" 1 10 0 [])) 10 1 =
      some ⟨"alfa", 2, 0, 5⟩ ∧ "alfa" ≠ "beta" := by decide

/-- C2 (amended): for every `(server, item)` pair, the upsert inserts a row
with `usage_count = 1` (and `first_used = last_used = now`) when the pair
is absent; when present it increments `usage_count` by 1 and sets
`last_used` to the current time, but keeps the previously stored item name
(the name passed in is ignored on conflict).  Both `trackCustomEmoji` and
`trackSticker` behave this way. -/
theorem C2_upsert_amended :
    (∀ (nm : String) (id sid : Int) (now : Nat) (t : Table),
      findRow (trackCustomEmoji nm id sid now t) sid id =
        match findRow t sid id with
        | none => some ⟨nm, 1, now, now⟩
        | some r => some ⟨r.name, r.usage_count + 1, r.first_used, now⟩) ∧
    (∀ (id : Int) (nm : String) (sid : Int) (now : Nat) (t : Table),
      findRow (trackSticker id nm sid now t) sid id =
        match findRow t sid id with
        | none => some ⟨nm, 1, now, now⟩
        | some r => some ⟨r.name, r.usage_count + 1, r.first_used, now⟩) :=
  ⟨findRow_trackCustomEmoji, findRow_trackSticker⟩

/-- C3 counterexample: the claim says a decrement sets `last_used` to the
current time; on a row with `last_used = 7`, a decrement leaves
`last_used = 7` (the `UPDATE` touches only `usage_count`, and
`decreaseCustomEmoji` takes no timestamp at all), so `last_used` differs
from any decrement time other than 7 (e.g. 8). -/
theorem C3_decrement_counterexample :
    findRow (decreaseCustomEmoji 1 10 [((10, 1), ⟨"alfa", 3, 0, 7⟩)]) 10 1 =
      some ⟨"alfa", 2, 0, 7⟩ ∧ (7 : Nat) ≠ 8 := by decide

/-- C3 (amended): for every `(server, item)` pair, `decreaseCustomEmoji`
on an existing row sets `usage_count` to `max 0 (usage_count - 1)` and
leaves every other column — including `last_used` — unchanged; when the
row is absent the update matches no rows and leaves the table unchanged (a
benign no-op; the code performs no not-found detection). -/
theorem C3_decrement_amended :
    (∀ (id sid : Int) (t : Table),
      findRow (decreaseCustomEmoji id sid t) sid id =
        (findRow t sid id).map fun r =>
          ⟨r.name, max 0 (r.usage_count - 1), r.first_used, r.last_used⟩) ∧
    (∀ (id sid : Int) (t : Table),
      findRow t sid id = none → decreaseCustomEmoji id sid t = t) :=
  ⟨findRow_decreaseCustomEmoji, decreaseCustomEmoji_absent⟩

/-- Witness for C3 (amended): decrementing an absent row in an empty table
is a no-op. -/
theorem C3_decrement_amended_witness :
    decreaseCustomEmoji 1 10 [] = ([] : Table) :=
  C3_decrement_amended.2 1 10 [] (by decide)

/-- C4 counterexample: with exactly 25 tracked emojis the claimed formula
`max(1, ceil(25/25))` gives 1 page, but `handleListEmotes` labels its jump
button `1/2`: the handlers use `25/25 + 1 = 2` pages. -/
theorem C4_total_pages_counterexample :
    specTotalPages (countRows emojiT25 10) 25 = 1 ∧
    (⟨jumpTok (gs "emoji_page") 0, gs "1/2"⟩ : Button) ∈
      responseButtons (handleListEmotes ⟨emojiT25, []⟩ 10 false) := by decide

/-- C4 (amended): the total-page count used by the list commands and the
button handler is `totalPagesCode count pageSize = count / pageSize + 1`
(floor division); it agrees with the claimed `max(1, ceil(count /
pageSize))` except when `count` is a positive multiple of `pageSize`, where
it is one greater (an extra trailing empty page). -/
theorem C4_total_pages_amended (count ps : Nat) (hps : 0 < ps) :
    totalPagesCode count ps =
      if count % ps = 0 ∧ 0 < count then specTotalPages count ps + 1
      else specTotalPages count ps := by
  obtain ⟨q, r, hrlt, hqr, hdiv, hmod⟩ :
      ∃ q r, r < ps ∧ ps * q + r = count ∧ count / ps = q ∧ count % ps = r :=
    ⟨count / ps, count % ps, Nat.mod_lt _ hps, Nat.div_add_mod count ps, rfl, rfl⟩
  rcases Nat.eq_zero_or_pos count with hc0 | hcpos
  · subst hc0
    rw [totalPagesCode, specTotalPages, if_neg (by omega), Nat.zero_div,
      Nat.div_eq_of_lt (by omega)]
    omega
  · rw [totalPagesCode, specTotalPages, hdiv, hmod]
    by_cases hr0 : r = 0
    · have hq1 : 0 < q := by
        by_contra h0
        have hq0 : q = 0 := by omega
        subst hq0
        rw [Nat.mul_zero] at hqr
        omega
      have hkey : count + ps - 1 = ps * q + (ps - 1) := by omega
      rw [hkey, Nat.mul_add_div hps, Nat.div_eq_of_lt (by omega),
        if_pos ⟨hr0, hcpos⟩]
      omega
    · have hmul : ps * (q + 1) = ps * q + ps := Nat.mul_succ ps q
      have hkey : count + ps - 1 = ps * (q + 1) + (r - 1) := by omega
      rw [hkey, Nat.mul_add_div hps, Nat.div_eq_of_lt (by omega),
        if_neg (by tauto)]
      omega

/-- Witness for C4 (amended), at `count = 7`, `pageSize = 25`. -/
theorem C4_total_pages_amended_witness :
    totalPagesCode 7 25 =
      if 7 % 25 = 0 ∧ 0 < 7 then specTotalPages 7 25 + 1
      else specTotalPages 7 25 :=
  C4_total_pages_amended 7 25 (by decide)

/-- C5: for every page index and total-page count, the navigation row
contains the jump control always (labelled `page+1/totalPages`, token
`prefix:page:jump`); the previous control (token `prefix:page-1`) iff
`page > 0`; the previous-by-10 control (token `prefix:max(page-10,0)`) iff
`page > 1`; the next control (token `prefix:page+1`) iff
`page < totalPages-1`; and the next-by-10 control (token
`prefix:min(page+10,totalPages-1)`) iff `page < totalPages-2`.  In
particular no previous control at page 0 and no next control at the last
page. -/
theorem C5_pagination_buttons (page tp : Int) (pfx : GoStr) :
    ((⟨jumpTok pfx page, jumpLabel page tp⟩ : Button) ∈
        createPaginationButtons page tp pfx) ∧
    ((⟨encodeTok pfx (page - 1), gs "<"⟩ : Button) ∈
        createPaginationButtons page tp pfx ↔ 0 < page) ∧
    ((⟨encodeTok pfx (max (page - 10) 0), gs "<<"⟩ : Button) ∈
        createPaginationButtons page tp pfx ↔ 1 < page) ∧
    ((⟨encodeTok pfx (page + 1), gs ">"⟩ : Button) ∈
        createPaginationButtons page tp pfx ↔ page < tp - 1) ∧
    ((⟨encodeTok pfx (min (page + 10) (tp - 1)), gs ">>"⟩ : Button) ∈
        createPaginationButtons page tp pfx ↔ page < tp - 2) :=
  ⟨jump_mem_buttons page tp pfx, prev_mem_buttons_iff page tp pfx,
    prev10_mem_buttons_iff page tp pfx, next_mem_buttons_iff page tp pfx,
    next10_mem_buttons_iff page tp pfx⟩

/-- C6: encoding `(prefix, pageIndex)` as `prefix:pageIndex` and decoding
it in the button handler recovers the original pair for both prefixes;
every token with fewer than two colon-separated segments or a non-numeric
page segment is silently dropped: the decoder yields nothing and the
button handler is a no-op for every store state. -/
theorem C6_token_roundtrip :
    (∀ page : Int, tokenDecode (encodeTok (gs "emoji_page") page) =
      some (.emojiPage page)) ∧
    (∀ page : Int, tokenDecode (encodeTok (gs "sticker_page") page) =
      some (.stickerPage page)) ∧
    (∀ cid : GoStr, (splitOnChar ':' cid).length < 2 →
      tokenDecode cid = none ∧
        ∀ (st : Stores) (sid : Int), handleButtonInteraction st sid cid = none) ∧
    (∀ (cid p0 p1 : GoStr) (rest : List GoStr),
      splitOnChar ':' cid = p0 :: p1 :: rest → goAtoi p1 = none →
      tokenDecode cid = none ∧
        ∀ (st : Stores) (sid : Int), handleButtonInteraction st sid cid = none) := by
  refine ⟨tokenDecode_encode_emoji, tokenDecode_encode_sticker, ?_, ?_⟩
  · intro cid h
    have ht := tokenDecode_short cid h
    exact ⟨ht, fun st sid => handleButton_none st sid cid ht⟩
  · intro cid p0 p1 rest hs hp
    have ht := tokenDecode_badPage cid p0 p1 rest hs hp
    exact ⟨ht, fun st sid => handleButton_none st sid cid ht⟩

/-- Witness for C6: a one-segment token and a non-numeric-page token are
both dropped without any handler response. -/
theorem C6_token_roundtrip_witness :
    tokenDecode (gs "emoji_page") = none ∧
    handleButtonInteraction ⟨[], []⟩ 10 (gs "emoji_page") = none ∧
    tokenDecode (gs "emoji_page:x") = none ∧
    handleButtonInteraction ⟨[], []⟩ 10 (gs "emoji_page:x") = none :=
  ⟨(C6_token_roundtrip.2.2.1 (gs "emoji_page") (by decide)).1,
   (C6_token_roundtrip.2.2.1 (gs "emoji_page") (by decide)).2 ⟨[], []⟩ 10,
   (C6_token_roundtrip.2.2.2 (gs "emoji_page:x") (gs "emoji_page") (gs "x") []
     (by decide) (by decide)).1,
   (C6_token_roundtrip.2.2.2 (gs "emoji_page:x") (gs "emoji_page") (gs "x") []
     (by decide) (by decide)).2 ⟨[], []⟩ 10⟩

/-- C7 (code bug): the modal's target page is range-checked against the
**emoji** table's page count even when the token prefix names the sticker
kind.  With no tracked emojis (1 emoji page) and 6 tracked stickers (2
sticker pages), submitting page 2 on a `sticker_page` modal targets page
index 1, which is in range for stickers, yet the handler is silently a
no-op. -/
theorem C7_page_jump_wrong_kind :
    handlePageJumpInteraction ⟨[], stickerT6⟩ 10 (gs "sticker_page:0") (gs "2") =
      none ∧
    (0 : Int) ≤ (2 : Int) - 1 ∧
    (2 : Int) - 1 ≤ ((totalPagesCode (countRows stickerT6 10) 5 : Nat) : Int) - 1 := by
  decide

/-- C8 counterexample: requesting page 5 when only one page of data exists
does yield an empty row set, but the claim that the control set contains
no previous controls is false: both the previous and previous-by-10
buttons are emitted. -/
theorem C8_beyond_last_page_counterexample :
    getEmojis ([] : Table) 10 (25 * 5) 25 = [] ∧
    (⟨encodeTok (gs "emoji_page") 4, gs "<"⟩ : Button) ∈
      createPaginationButtons 5 1 (gs "emoji_page") ∧
    (⟨encodeTok (gs "emoji_page") 0, gs "<<"⟩ : Button) ∈
      createPaginationButtons 5 1 (gs "emoji_page") := by decide

/-- C8 (amended): for every button interaction — emoji or sticker —
requesting a page index at or beyond the page count, the paged read
returns an empty row sequence and the navigation row contains no next and
no next-by-10 control; however it does contain a previous control (such a
page index is positive) and, when `page > 1`, a previous-by-10 control. -/
theorem C8_beyond_last_page_amended :
    (∀ (st : Stores) (sid page : Int),
      (totalPagesCode (countRows st.emojis sid) 25 : Int) ≤ page →
      handleButtonInteraction st sid (encodeTok (gs "emoji_page") page) =
        some (.updateMsg (.emojiList []
          (createPaginationButtons page
            (totalPagesCode (countRows st.emojis sid) 25 : Int) (gs "emoji_page"))
          true)) ∧
      (∀ b ∈ createPaginationButtons page
          (totalPagesCode (countRows st.emojis sid) 25 : Int) (gs "emoji_page"),
        b.label ≠ gs ">" ∧ b.label ≠ gs ">>") ∧
      (⟨encodeTok (gs "emoji_page") (page - 1), gs "<"⟩ : Button) ∈
        createPaginationButtons page
          (totalPagesCode (countRows st.emojis sid) 25 : Int) (gs "emoji_page") ∧
      (1 < page →
        (⟨encodeTok (gs "emoji_page") (max (page - 10) 0), gs "<<"⟩ : Button) ∈
          createPaginationButtons page
            (totalPagesCode (countRows st.emojis sid) 25 : Int) (gs "emoji_page"))) ∧
    (∀ (st : Stores) (sid page : Int),
      (totalPagesCode (countRows st.stickers sid) 5 : Int) ≤ page →
      handleButtonInteraction st sid (encodeTok (gs "sticker_page") page) =
        some (.updateMsg (.stickerList []
          (createPaginationButtons page
            (totalPagesCode (countRows st.stickers sid) 5 : Int) (gs "sticker_page"))
          true)) ∧
      (∀ b ∈ createPaginationButtons page
          (totalPagesCode (countRows st.stickers sid) 5 : Int) (gs "sticker_page"),
        b.label ≠ gs ">" ∧ b.label ≠ gs ">>") ∧
      (⟨encodeTok (gs "sticker_page") (page - 1), gs "<"⟩ : Button) ∈
        createPaginationButtons page
          (totalPagesCode (countRows st.stickers sid) 5 : Int) (gs "sticker_page") ∧
      (1 < page →
        (⟨encodeTok (gs "sticker_page") (max (page - 10) 0), gs "<<"⟩ : Button) ∈
          createPaginationButtons page
            (totalPagesCode (countRows st.stickers sid) 5 : Int)
            (gs "sticker_page"))) := by
  constructor
  · intro st sid page h
    have htp1 : 1 ≤ totalPagesCode (countRows st.emojis sid) 25 := by
      rw [totalPagesCode]; omega
    have hpage : 0 < page := by
      have h2 : (1 : Int) ≤ (totalPagesCode (countRows st.emojis sid) 25 : Int) := by
        exact_mod_cast htp1
      omega
    refine ⟨?_, ?_, ?_, ?_⟩
    · rw [handleButton_emoji_page,
        getEmojis_empty_of_beyond _ _ _ _ (count_le_offset _ _ h),
        createEmojiListMessage]
      rfl
    · intro b hb
      have hn1 : ¬(page < (totalPagesCode (countRows st.emojis sid) 25 : Int) - 1) := by
        omega
      have hn2 : ¬(page < (totalPagesCode (countRows st.emojis sid) 25 : Int) - 2) := by
        omega
      rw [createPaginationButtons, if_neg hn1, if_neg hn2] at hb
      simp only [List.append_nil, List.mem_append, List.mem_singleton, or_assoc] at hb
      rcases hb with hb | hb | hb
      · rw [mem_ite_singleton hb]
        exact ⟨show gs "<<" ≠ gs ">" by decide, show gs "<<" ≠ gs ">>" by decide⟩
      · rw [mem_ite_singleton hb]
        exact ⟨show gs "<" ≠ gs ">" by decide, show gs "<" ≠ gs ">>" by decide⟩
      · subst hb
        exact ⟨jumpLabel_ne_gt _ _, jumpLabel_ne_ggt _ _⟩
    · exact (prev_mem_buttons_iff page _ _).mpr hpage
    · exact fun h1 => (prev10_mem_buttons_iff page _ _).mpr h1
  · intro st sid page h
    have htp1 : 1 ≤ totalPagesCode (countRows st.stickers sid) 5 := by
      rw [totalPagesCode]; omega
    have hpage : 0 < page := by
      have h2 : (1 : Int) ≤ (totalPagesCode (countRows st.stickers sid) 5 : Int) := by
        exact_mod_cast htp1
      omega
    refine ⟨?_, ?_, ?_, ?_⟩
    · rw [handleButton_sticker_page,
        getStickers_empty_of_beyond _ _ _ _ (count_le_offset5 _ _ h),
        createStickerListMessage]
      rfl
    · intro b hb
      have hn1 : ¬(page < (totalPagesCode (countRows st.stickers sid) 5 : Int) - 1) := by
        omega
      have hn2 : ¬(page < (totalPagesCode (countRows st.stickers sid) 5 : Int) - 2) := by
        omega
      rw [createPaginationButtons, if_neg hn1, if_neg hn2] at hb
      simp only [List.append_nil, List.mem_append, List.mem_singleton, or_assoc] at hb
      rcases hb with hb | hb | hb
      · rw [mem_ite_singleton hb]
        exact ⟨show gs "<<" ≠ gs ">" by decide, show gs "<<" ≠ gs ">>" by decide⟩
      · rw [mem_ite_singleton hb]
        exact ⟨show gs "<" ≠ gs ">" by decide, show gs "<" ≠ gs ">>" by decide⟩
      · subst hb
        exact ⟨jumpLabel_ne_gt _ _, jumpLabel_ne_ggt _ _⟩
    · exact (prev_mem_buttons_iff page _ _).mpr hpage
    · exact fun h1 => (prev10_mem_buttons_iff page _ _).mpr h1

/-- Witness for C8 (amended): page 5 on an empty store, for both kinds,
including the previous-by-10 conclusion (`1 < 5`). -/
theorem C8_beyond_last_page_amended_witness :
    handleButtonInteraction ⟨[], []⟩ 10 (encodeTok (gs "emoji_page") 5) =
      some (.updateMsg (.emojiList []
        (createPaginationButtons 5
          (totalPagesCode (countRows ([] : Table) 10) 25 : Int) (gs "emoji_page"))
        true)) ∧
    handleButtonInteraction ⟨[], []⟩ 10 (encodeTok (gs "sticker_page") 5) =
      some (.updateMsg (.stickerList []
        (createPaginationButtons 5
          (totalPagesCode (countRows ([] : Table) 10) 5 : Int) (gs "sticker_page"))
        true)) ∧
    (⟨encodeTok (gs "emoji_page") (max ((5 : Int) - 10) 0), gs "<<"⟩ : Button) ∈
      createPaginationButtons 5
        (totalPagesCode (countRows ([] : Table) 10) 25 : Int) (gs "emoji_page") :=
  ⟨(C8_beyond_last_page_amended.1 ⟨[], []⟩ 10 5 (by decide)).1,
   (C8_beyond_last_page_amended.2 ⟨[], []⟩ 10 5 (by decide)).1,
   (C8_beyond_last_page_amended.1 ⟨[], []⟩ 10 5 (by decide)).2.2.2 (by decide)⟩

/-- C9: the live-list cache returns the stored set without invoking the
external fetch whenever a non-expired entry exists; on a miss or after
expiry it invokes the fetch exactly once, stores the result with
`expiresAt = now + 24h`, and returns it; two calls within the TTL window
altogether perform exactly one fetch and return the identical set. -/
theorem C9_live_cache :
    (∀ (fetch : Int → Option (List Emoji)) (now : Nat)
        (cache : Int → Option CachedEmojiList) (gid : Int)
        (entry : CachedEmojiList),
      cache gid = some entry → now < entry.expiresAt →
      getGuildEmojis fetch now cache gid = (some entry.emojis, cache, false)) ∧
    (∀ (fetch : Int → Option (List Emoji)) (now : Nat)
        (cache : Int → Option CachedEmojiList) (gid : Int) (es : List Emoji),
      (cache gid = none ∨ ∃ e, cache gid = some e ∧ ¬ now < e.expiresAt) →
      fetch gid = some es →
      getGuildEmojis fetch now cache gid =
        (some es, fun g => if g = gid then some ⟨es, now + ttl24h⟩ else cache g,
          true)) ∧
    (∀ (fetch : Int → Option (List Emoji)) (now1 now2 : Nat)
        (cache : Int → Option CachedEmojiList) (gid : Int) (es : List Emoji),
      cache gid = none → fetch gid = some es → now2 < now1 + ttl24h →
      getGuildEmojis fetch now1 cache gid =
        (some es, fun g => if g = gid then some ⟨es, now1 + ttl24h⟩ else cache g,
          true) ∧
      getGuildEmojis fetch now2
          (fun g => if g = gid then some ⟨es, now1 + ttl24h⟩ else cache g) gid =
        (some es, fun g => if g = gid then some ⟨es, now1 + ttl24h⟩ else cache g,
          false)) := by
  refine ⟨getGuildEmojis_hit, getGuildEmojis_refresh, ?_⟩
  intro fetch now1 now2 cache gid es hc hf hlt
  refine ⟨getGuildEmojis_refresh fetch now1 cache gid es (Or.inl hc) hf, ?_⟩
  have hc2 : (fun g => if g = gid then some ⟨es, now1 + ttl24h⟩ else cache g) gid
      = some (⟨es, now1 + ttl24h⟩ : CachedEmojiList) := by simp
  exact getGuildEmojis_hit fetch now2 _ gid ⟨es, now1 + ttl24h⟩ hc2 hlt

/-- Witness for C9: a miss at time 0 fetches and stores; a second call at
time 100 (within the 24 h window) returns the identical set from the cache
without fetching. -/
theorem C9_live_cache_witness :
    getGuildEmojis (fun _ => some [⟨1, "pog"⟩]) 0 (fun _ => none) 10 =
      (some [⟨1, "pog"⟩],
        fun g => if g = 10 then some ⟨[⟨1, "pog"⟩], 0 + ttl24h⟩
          else (fun _ => (none : Option CachedEmojiList)) g, true) ∧
    getGuildEmojis (fun _ => some [⟨1, "pog"⟩]) 100
        (fun g => if g = 10 then some ⟨[⟨1, "pog"⟩], 0 + ttl24h⟩
          else (fun _ => (none : Option CachedEmojiList)) g) 10 =
      (some [⟨1, "pog"⟩],
        (fun g => if g = 10 then some ⟨[⟨1, "pog"⟩], 0 + ttl24h⟩
          else (fun _ => (none : Option CachedEmojiList)) g), false) :=
  C9_live_cache.2.2 (fun _ => some [⟨1, "pog"⟩]) 0 100 (fun _ => none) 10
    [⟨1, "pog"⟩] rfl rfl (by decide)

/-- C10: a list command issued against a server whose counter table for
that kind has zero rows responds with a user-visible error message instead
of a paginated list; the error response carries no entries and no
navigation controls. -/
theorem C10_empty_list_error :
    (∀ (st : Stores) (sid : Int) (share : Bool), countRows st.emojis sid = 0 →
      handleListEmotes st sid share =
        .errorMsg (gs "No emoji data found for this server.")) ∧
    (∀ (st : Stores) (sid : Int) (share : Bool), countRows st.stickers sid = 0 →
      handleListStickers st sid share =
        .errorMsg (gs "No sticker data found for this server.")) := by
  constructor
  · intro st sid share h
    have hempty : getEmojis st.emojis sid 0 25 = [] :=
      getEmojis_empty_of_beyond _ _ _ _ (by omega)
    simp [handleListEmotes, hempty]
  · intro st sid share h
    have hempty : getStickers st.stickers sid 0 5 = [] :=
      getStickers_empty_of_beyond _ _ _ _ (by omega)
    simp [handleListStickers, hempty]

/-- Witness for C10: both list commands on an empty store. -/
theorem C10_empty_list_error_witness :
    handleListEmotes ⟨[], []⟩ 3 true =
      .errorMsg (gs "No emoji data found for this server.") ∧
    handleListStickers ⟨[], []⟩ 3 false =
      .errorMsg (gs "No sticker data found for this server.") :=
  ⟨C10_empty_list_error.1 ⟨[], []⟩ 3 true (by decide),
   C10_empty_list_error.2 ⟨[], []⟩ 3 false (by decide)⟩
